import Mathlib

/-!
Verification of the catalog-search + LLM-invocation pipeline of the
AI-Product-Cards repository, as a shallow embedding in Lean 4.

The embedding covers:
  * the string primitives the Python code relies on (`str.lower`,
    substring containment `in` / `str.contains` with an escaped literal
    pattern, `str.split()` on whitespace);
  * the static synonym dictionaries of `generate_card.get_product_info`,
    `telegram_bot/utils.get_product_info` and
    `telegram_bot/utils.search_products`;
  * name-column resolution (the column auto-detection at the start of
    `get_product_info`, identical in both files);
  * single-product search `get_product_info` (exact pass + keyword pass),
    including the per-keyword `try/except` recovery;
  * bulk search `search_products` and the bulk-listing column choice;
  * the retry loops of `generate_card.main` and
    `GigaChatService.generate_card` with their connection-error
    classifiers and linear backoff;
  * token-usage normalization of `generate_card.main` (three shapes with
    an "unavailable" fallback) and of
    `GigaChatService.extract_token_info`.
-/

/-! ## String primitives -/

/-- Lower-casing of a single character, as Python `str.lower` behaves on the
alphabets this program actually uses: ASCII letters and Cyrillic
(`А`-`Я` U+0410–0x42F maps to `а`-`я`, `Ё` maps to `ё`). -/
def lowerChar (c : Char) : Char :=
  if 65 ≤ c.toNat ∧ c.toNat ≤ 90 then Char.ofNat (c.toNat + 32)
  else if 0x410 ≤ c.toNat ∧ c.toNat ≤ 0x42F then Char.ofNat (c.toNat + 32)
  else if c.toNat = 0x401 then Char.ofNat 0x451
  else c

/-- Python `s.lower()`. -/
def lowerStr (s : String) : String :=
  ⟨s.data.map lowerChar⟩

/-- Bool-valued substring test on character lists: `subList pat hay` is true
iff `pat` occurs contiguously inside `hay`.  This is Python's `pat in hay`
and also `Series.str.contains(re.escape(pat))`, since an escaped pattern
matches exactly as a literal substring. -/
def subList (pat : List Char) : List Char → Bool
  | [] => pat.isEmpty
  | c :: rest => pat.isPrefixOf (c :: rest) || subList pat rest

/-- Substring containment on strings: `containsSub hay pat` iff `pat` occurs
in `hay`. -/
def containsSub (hay pat : String) : Bool :=
  subList pat.data hay.data

/-- Splitting a character list into its maximal runs of non-whitespace
characters; `cur` holds the characters of the current run in reverse. -/
def splitWsAux (cur : List Char) : List Char → List String
  | [] => if cur.isEmpty then [] else [⟨cur.reverse⟩]
  | c :: rest =>
    if c.isWhitespace then
      if cur.isEmpty then splitWsAux [] rest
      else ⟨cur.reverse⟩ :: splitWsAux [] rest
    else splitWsAux (c :: cur) rest

/-- Python `query.lower().split()`: lower-case, then split on whitespace
runs, discarding empty pieces. -/
def tokenize (q : String) : List String :=
  splitWsAux [] (lowerStr q).data

/-! ## Synonym dictionaries (static data of the source) -/

/-- The synonym dictionary of `get_product_info`
(`generate_card.py` lines 97-104 and `telegram_bot/utils.py` lines 74-81):
each value list ends with the key itself, exactly as in the source. -/
def synonyms : List (String × List String) :=
  [("ноутбук", ["laptop", "notebook", "ноутбук"]),
   ("наушники", ["headphone", "earphone", "earbud", "наушники"]),
   ("колонка", ["speaker", "колонка"]),
   ("телефон", ["phone", "smartphone", "телефон"]),
   ("камера", ["camera", "камера"]),
   ("планшет", ["tablet", "ipad", "планшет"])]

/-- The Synonym Index as the specification declares it (§4.2): a canonical
key maps to its alternates only, without repeating the key. -/
def synonymAlternates : List (String × List String) :=
  [("ноутбук", ["laptop", "notebook"]),
   ("наушники", ["headphone", "earphone", "earbud"]),
   ("колонка", ["speaker"]),
   ("телефон", ["phone", "smartphone"]),
   ("камера", ["camera"]),
   ("планшет", ["tablet", "ipad"])]

/-- Dictionary lookup `synonyms[keyword]` (empty when `keyword` is no key). -/
def synLookup (t : String) : List String :=
  ((synonyms.find? (fun p => p.1 == t)).map Prod.snd).getD []

/-- Alternate lookup against the spec-side Synonym Index. -/
def altLookup (t : String) : List String :=
  ((synonymAlternates.find? (fun p => p.1 == t)).map Prod.snd).getD []

/-- List-concatenation map, the shape of the Python loop that appends each
token and then extends with its synonyms. -/
def flatMapL (g : α → List β) : List α → List β
  | [] => []
  | a :: as => g a ++ flatMapL g as

/-- The keyword list `search_keywords` as built by `get_product_info` (lines 140-147): for
each query token, the token itself followed by its dictionary entry. -/
def buildKeywords (q : String) : List String :=
  flatMapL (fun t => t :: synLookup t) (tokenize q)

/-- The candidate-keyword sequence as the claim words it: each token followed
by its spec-side alternates. -/
def buildKeywordsSpec (q : String) : List String :=
  flatMapL (fun t => t :: altLookup t) (tokenize q)

/-! ## Schema Resolver (name-column auto-detection)

`get_product_info` lines 106-129 of `generate_card.py`, identical in
`telegram_bot/utils.py` lines 83-103. A table schema is modelled by the
declared column-name list plus a predicate `isObj` telling which columns
have pandas dtype `object` (textual). -/

/-- Candidate tokens checked by substring containment against the
lower-cased column name (`possible_names`, line 109). -/
def possible_names : List String :=
  ["name", "title", "product", "description", "название", "наименование"]

/-- A column matches step 1 of the resolver iff its lower-cased name
contains some candidate token. -/
def colMatches (c : String) : Bool :=
  possible_names.any (fun p => containsSub (lowerStr c) p)

/-- Name-column resolution, embedded from the source: (1) first column in
declared order matching a candidate token; (2) otherwise first column with
dtype `object` whose lower-cased name is not `"id"` — but via Python's
`if not name_col:` truthiness test an empty-string column name found here
is treated as "not found"; (3) otherwise the first column (`none` only for
an empty schema, where `df.columns[0]` would raise). -/
def resolveNameCol (cols : List String) (isObj : String → Bool) : Option String :=
  match cols.find? colMatches with
  | some c => some c
  | none =>
    match cols.find? (fun c => isObj c && lowerStr c != "id") with
    | some c => if c = "" then cols.head? else some c
    | none => cols.head?

/-- The resolver as claim C8 words it: (1) first candidate-matching column;
(2) otherwise the first textual non-"id" column (with no proviso about
empty names); (3) otherwise the first column.  Written from the claim, for
comparison with `resolveNameCol`. -/
def resolveNameColSpecClaim (cols : List String) (isObj : String → Bool) : Option String :=
  match cols.find? colMatches with
  | some c => some c
  | none =>
    match cols.find? (fun c => isObj c && lowerStr c != "id") with
    | some c => some c
    | none => cols.head?

/-! ## Search Engine: single-product search -/

/-- Exact pass (line 134): first record whose lower-cased name-column value
equals the lower-cased full query. `nameOf` is the projection onto the
resolved name column. -/
def exactFind (q : String) (nameOf : ρ → String) (cat : List ρ) : Option ρ :=
  cat.find? (fun r => lowerStr (nameOf r) == lowerStr q)

/-- One keyword of the keyword pass (line 155): first record whose
lower-cased name contains the keyword. -/
def kwFind (nameOf : ρ → String) (cat : List ρ) (kw : String) : Option ρ :=
  cat.find? (fun r => containsSub (lowerStr (nameOf r)) kw)

/-- The keyword loop of lines 150-162, with the per-keyword `try/except`
made explicit: `attempt kw` is `Except.error _` when the pandas match for
this keyword raises, `Except.ok m` when it completes with result `m`.
Keywords of length ≤ 2 are skipped; an exception is caught and the loop
continues with the next keyword, exactly as the `except ... continue`
branch does. -/
def keywordLoop (attempt : String → Except Unit (Option ρ)) : List String → Option ρ
  | [] => none
  | kw :: rest =>
    if kw.length > 2 then
      match attempt kw with
      | Except.ok (some r) => some r
      | Except.ok none => keywordLoop attempt rest
      | Except.error _ => keywordLoop attempt rest
    else keywordLoop attempt rest

/-- Search `get_product_info` after column resolution, generalized over the
per-keyword matcher so that matcher failures are expressible. -/
def get_product_info_withMatcher (q : String) (nameOf : ρ → String) (cat : List ρ)
    (attempt : String → Except Unit (Option ρ)) : Option ρ :=
  match exactFind q nameOf cat with
  | some r => some r
  | none => keywordLoop attempt (buildKeywords q)

/-- Search `get_product_info` after column resolution (lines 133-168 of
`generate_card.py`, lines 105-132 of `utils.py`): exact pass, then the
keyword loop over `search_keywords`, whose substring matcher on an
`re.escape`d literal never raises. -/
def get_product_info (q : String) (nameOf : ρ → String) (cat : List ρ) : Option ρ :=
  get_product_info_withMatcher q nameOf cat (fun kw => Except.ok (kwFind nameOf cat kw))

/-- One candidate of the keyword pass as claim C1 words it: skipped when of
length ≤ 2, otherwise the first record whose name contains it. -/
def specStep (nameOf : ρ → String) (cat : List ρ) (kw : String) : Option ρ :=
  if kw.length > 2 then kwFind nameOf cat kw else none

/-- Search `find_one` as claim C1 words it: exact pass first; only if it finds
nothing, the first candidate of `buildKeywordsSpec` (token, then spec-side
alternates) that yields ≥ 1 match decides, returning the first matching
record in catalog order; otherwise `none`. -/
def find_one_spec (q : String) (nameOf : ρ → String) (cat : List ρ) : Option ρ :=
  match exactFind q nameOf cat with
  | some r => some r
  | none => (buildKeywordsSpec q).findSome? (specStep nameOf cat)

/-! ## Search Engine: bulk listing (`search_products`, `utils.py` 135-184) -/

/-- A record is a row: a list of (column name, stringified value) pairs. -/
def Rec : Type := List (String × String)

/-- Column access `row[col]`, stringified as `astype(str)` does. -/
def getVal (r : Rec) (c : String) : String :=
  ((List.find? (fun p => p.1 == c) r).map Prod.snd).getD ""

/-- An in-memory table: declared column order plus rows. -/
structure DF where
  cols : List String
  rows : List Rec

/-- The bulk-listing synonym dictionary (`utils.py` lines 147-154, repeated
verbatim in the console listing branch of `generate_card.main`
lines 266-273): the value lists do not repeat the key. -/
def synonymsBulk : List (String × List String) :=
  [("ноутбук", ["laptop", "notebook"]),
   ("наушники", ["headphone", "earphone", "earbud"]),
   ("колонка", ["speaker"]),
   ("телефон", ["phone", "smartphone"]),
   ("камера", ["camera"]),
   ("планшет", ["tablet", "ipad"])]

/-- Column choice of the bulk-listing paths
(`utils.py` line 157, `generate_card.main` line 263, `handlers.py`
lines 164/233/320/360/389): the column named exactly `"name"`
(case-sensitive membership test) when present, else the first column. -/
def bulkNameCol (cols : List String) : Option String :=
  if cols.contains "name" then some "name" else cols.head?

/-- Keyword set of `search_products` (lines 160-167): the value list of the
first dictionary key that occurs as a substring of the lower-cased query,
else the raw lower-cased query tokens. -/
def bulkKeywords (query : String) : List String :=
  match synonymsBulk.find? (fun p => containsSub (lowerStr query) p.1) with
  | some p => p.2
  | none => tokenize query

/-- The search loop of `search_products` (lines 170-182): first keyword of
length > 2 with ≥ 1 match decides; `matches.head(limit)` is returned. -/
def bulkLoop (nameCol : String) (rows : List Rec) (limit : Nat) : List String → List Rec
  | [] => []
  | kw :: rest =>
    if kw.length > 2 then
      match rows.filter (fun r => containsSub (lowerStr (getVal r nameCol)) kw) with
      | [] => bulkLoop nameCol rows limit rest
      | m :: ms => (m :: ms).take limit
    else bulkLoop nameCol rows limit rest

/-- Bulk search `search_products(query, df, limit)` (`utils.py` lines 135-184). -/
def search_products (query : String) (df : DF) (limit : Nat) : List Rec :=
  bulkLoop ((bulkNameCol df.cols).getD "") df.rows limit (bulkKeywords query)

/-- Display count of the console listing branch (`generate_card.main`
lines 257-259): the first integer found in the input (default 5), capped
at 20. -/
def consoleListCount (numbersInInput : List Nat) : Nat :=
  min (numbersInInput.headD 5) 20

/-- Quantity cap of the Telegram quantity-command parser
(`handlers.py` line 309): the parsed count is capped at 50. -/
def parseQuantityCap (n : Nat) : Nat := min n 50

/-! ## Card Generator: retry loop -/

/-- Connection/timeout/TLS indicator substrings of the console retry loop
(`generate_card.main` lines 342-345). -/
def connIndicatorsConsole : List String :=
  ["connection reset", "connecttimeout", "timeout", "timed out", "handshake", "ssl"]

/-- Console classifier: some indicator occurs in the lower-cased error
text. -/
def isConnectionErrorConsole (msg : String) : Bool :=
  connIndicatorsConsole.any (fun k => containsSub (lowerStr msg) k)

/-- Indicator substrings of the Telegram bot's retry loop
(`gigachat_service.py` lines 123-126). -/
def connIndicatorsBot : List String :=
  ["connection reset", "timeout", "ssl"]

/-- Bot classifier. -/
def isConnectionErrorBot (msg : String) : Bool :=
  connIndicatorsBot.any (fun k => containsSub (lowerStr msg) k)

/-- Outcome of a retry loop: the response if one succeeded, the number of
remote calls made, and the backoff waits performed, in order. -/
structure RetryResult (ρ : Type) where
  response : Option ρ
  calls : Nat
  waits : List Nat
deriving DecidableEq

/-- The retry loop shared in shape by `generate_card.main` (lines 323-361)
and `GigaChatService.generate_card` (lines 97-137): `call n` is the n-th
remote invocation (1-based), returning the response or raising an error
with the given text.  On an error classified retryable by `p` with retries
left, wait `retry_count × 3` and loop; otherwise stop with no response.
`fuel` bounds the recursion; `maxR` iterations always suffice. -/
def retryGo (p : String → Bool) (maxR : Nat) (call : Nat → Except String ρ)
    (rc calls : Nat) (waits : List Nat) : Nat → RetryResult ρ
  | 0 => ⟨none, calls, waits⟩
  | fuel + 1 =>
    if rc < maxR then
      match call (rc + 1) with
      | Except.ok r => ⟨some r, calls + 1, waits⟩
      | Except.error e =>
        if p e then
          if rc + 1 < maxR then
            retryGo p maxR call (rc + 1) (calls + 1) (waits ++ [(rc + 1) * 3]) fuel
          else ⟨none, calls + 1, waits⟩
        else ⟨none, calls + 1, waits⟩
    else ⟨none, calls, waits⟩

/-- The console retry loop: 3 attempts, console classifier. -/
def consoleRetry (call : Nat → Except String ρ) : RetryResult ρ :=
  retryGo isConnectionErrorConsole 3 call 0 0 [] 3

/-- The bot retry loop (`generate_card` with default `max_retries = 3`):
3 attempts, bot classifier. -/
def botRetry (call : Nat → Except String ρ) : RetryResult ρ :=
  retryGo isConnectionErrorBot 3 call 0 0 [] 3

/-! ## Card Generator: token-usage normalization

Python dicts carry optional keys; an `Option Nat` field is `none` when the
key is absent.  The `usage_metadata` object is modelled in its dict shape
(the console code's `getattr` branch for object-shaped usage is outside
the claims); a `none` entry in `full_generation` covers both a generation
without `message.usage_metadata` and one whose `usage_metadata` is falsy
(the code skips both without recording data). -/

/-- A `usage_metadata` dict: `input_tokens`/`output_tokens`/`total_tokens`
with the `prompt_tokens`/`completion_tokens` fallback keys the console
code also probes, and `input_token_details.cache_read`
(`cache_read = none` covers both a missing `input_token_details` and one
without a `cache_read` key). -/
structure UsageDict where
  input_tokens : Option Nat
  output_tokens : Option Nat
  total_tokens : Option Nat
  prompt_tokens : Option Nat
  completion_tokens : Option Nat
  cache_read : Option Nat
deriving DecidableEq

/-- A `usage` / `token_usage` dict of shapes (2) and (3). -/
structure PCUsage where
  prompt_tokens : Option Nat
  completion_tokens : Option Nat
  total_tokens : Option Nat
deriving DecidableEq

/-- The fields of an LLM response that the normalizers probe.
`generation_info`: outer `none` = key absent; inner `none` = present but
carrying no `usage` dict (after the first-element unwrap for lists).
`llm_output`: outer `none` = key absent or falsy; inner `none` = present
without a `token_usage` key. -/
structure Response where
  full_generation : Option (List (Option UsageDict))
  generation_info : Option (Option PCUsage)
  llm_output : Option (Option PCUsage)

/-- The normalized token report: `none` renders as "N/A"/unavailable;
`cached_tokens` defaults to 0. -/
structure TokenReport where
  input_tokens : Option Nat
  output_tokens : Option Nat
  total_tokens : Option Nat
  cached_tokens : Nat
deriving DecidableEq

/-- Shape (1) lookup: the first generation in `full_generation` carrying a
(truthy, dict-shaped) `message.usage_metadata`
(`generate_card.main` lines 403-409, `extract_token_info` lines 157-163). -/
def metaUsageOf (r : Response) : Option UsageDict :=
  match r.full_generation with
  | some gens => gens.findSome? id
  | none => none

/-- Console reading of shape (1) (lines 411-423):
`usage.get('input_tokens', usage.get('prompt_tokens', 'N/A'))` and
symmetrically for output; cached from `input_token_details.cache_read`
(displayed only when positive, hence 0 when absent). -/
def usageFromMeta (u : UsageDict) : TokenReport :=
  { input_tokens := (u.input_tokens).orElse (fun _ => u.prompt_tokens)
    output_tokens := (u.output_tokens).orElse (fun _ => u.completion_tokens)
    total_tokens := u.total_tokens
    cached_tokens := (u.cache_read).getD 0 }

/-- Bot reading of shape (1) (`extract_token_info` lines 164-170): plain
`input_tokens`/`output_tokens`/`total_tokens` without the prompt/completion
fallback; cached via `.get('cache_read', 0)`. -/
def usageFromMetaBot (u : UsageDict) : TokenReport :=
  { input_tokens := u.input_tokens
    output_tokens := u.output_tokens
    total_tokens := u.total_tokens
    cached_tokens := (u.cache_read).getD 0 }

/-- Reading of shapes (2) and (3) (lines 443-457):
`prompt_tokens`/`completion_tokens`/`total_tokens`; no cached figure. -/
def usageFromPC (u : PCUsage) : TokenReport :=
  { input_tokens := u.prompt_tokens
    output_tokens := u.completion_tokens
    total_tokens := u.total_tokens
    cached_tokens := 0 }

/-- All fields unavailable (line 462). -/
def unavailableReport : TokenReport := ⟨none, none, none, 0⟩

/-- Console token extraction (`generate_card.main` lines 398-462): shape (1)
`full_generation[i].message.usage_metadata`, else shape (2)
`generation_info.usage`, else shape (3) `llm_output.token_usage`, else
unavailable. -/
def extractTokensConsole (r : Response) : TokenReport :=
  match metaUsageOf r with
  | some u => usageFromMeta u
  | none =>
    match r.generation_info with
    | some (some u) => usageFromPC u
    | _ =>
      match r.llm_output with
      | some (some u) => usageFromPC u
      | _ => unavailableReport

/-- Bot-side `GigaChatService.extract_token_info` (lines 139-173): only shape (1) is
probed; everything else yields the all-N/A default. -/
def extract_token_info (r : Response) : TokenReport :=
  match metaUsageOf r with
  | some u => usageFromMetaBot u
  | none => unavailableReport

/-- Normalization as the specification and claim C3 word it: try shape (1),
then (2), then (3), stopping at the first that yields data, else
unavailable.  Written from the spec for comparison with
`extractTokensConsole`. -/
def normalizeSpec (r : Response) : TokenReport :=
  match metaUsageOf r with
  | some u => usageFromMeta u
  | none =>
    match r.generation_info with
    | some (some u) => usageFromPC u
    | some none | none =>
      match r.llm_output with
      | some (some u) => usageFromPC u
      | some none | none => unavailableReport

/-- A response exposing only `llm_output.token_usage =
{prompt_tokens: 10, completion_tokens: 5, total_tokens: 15}`. -/
def llmOnlyResponse : Response :=
  { full_generation := none
    generation_info := none
    llm_output := some (some ⟨some 10, some 5, some 15⟩) }

/-- A response with no usage data in any shape. -/
def emptyResponse : Response :=
  { full_generation := none, generation_info := none, llm_output := none }

/-! ## Theorems -/

/-- Claim C4: if the remote call raises a connection/timeout-classified
error on attempts 1 and 2 and succeeds on attempt 3, both the console and
the Telegram retry loops end with the attempt-3 response, exactly 3 remote
calls, and backoff waits of 1×3 = 3 after attempt 1 and 2×3 = 6 after
attempt 2 (total 9), with no wait after the successful call. -/
theorem claim4_retry_succeeds_third_attempt {ρ : Type} (call : Nat → Except String ρ)
    (e1 e2 : String) (r : ρ)
    (h1 : call 1 = Except.error e1) (h2 : call 2 = Except.error e2)
    (h3 : call 3 = Except.ok r)
    (hc1 : isConnectionErrorConsole e1 = true)
    (hc2 : isConnectionErrorConsole e2 = true)
    (hb1 : isConnectionErrorBot e1 = true)
    (hb2 : isConnectionErrorBot e2 = true) :
    consoleRetry call = ⟨some r, 3, [3, 6]⟩ ∧ botRetry call = ⟨some r, 3, [3, 6]⟩ := by
  constructor <;>
    simp [consoleRetry, botRetry, retryGo, h1, h2, h3, hc1, hc2, hb1, hb2]

/-- Concrete run of claim C4: a call oracle failing with "timeout" on the
first two attempts and returning 0 on the third. -/
def callWitnessC4 : Nat → Except String Nat :=
  fun n => if n < 3 then Except.error "timeout" else Except.ok 0

/-- Witness for claim C4 at the concrete oracle `callWitnessC4`. -/
theorem claim4_witness :
    consoleRetry callWitnessC4 = ⟨some 0, 3, [3, 6]⟩ ∧
      botRetry callWitnessC4 = ⟨some 0, 3, [3, 6]⟩ :=
  claim4_retry_succeeds_third_attempt callWitnessC4 "timeout" "timeout" 0
    rfl rfl rfl rfl rfl rfl rfl

/-- Claim C5: if the first remote call raises an error that neither
classifier recognizes as connection/timeout/TLS, both retry loops stop
with no response after exactly 1 call and no backoff wait. -/
theorem claim5_nonconn_fails_immediately {ρ : Type} (call : Nat → Except String ρ)
    (e : String) (h1 : call 1 = Except.error e)
    (hc : isConnectionErrorConsole e = false)
    (hb : isConnectionErrorBot e = false) :
    consoleRetry call = ⟨none, 1, []⟩ ∧ botRetry call = ⟨none, 1, []⟩ := by
  constructor <;> simp [consoleRetry, botRetry, retryGo, h1, hc, hb]

/-- Concrete run of claim C5: every attempt fails with a non-connection
(auth-style) error. -/
def callWitnessC5 : Nat → Except String Nat :=
  fun _ => Except.error "401 unauthorized"

/-- Witness for claim C5 at the concrete oracle `callWitnessC5`. -/
theorem claim5_witness :
    consoleRetry callWitnessC5 = ⟨none, 1, []⟩ ∧
      botRetry callWitnessC5 = ⟨none, 1, []⟩ :=
  claim5_nonconn_fails_immediately callWitnessC5 "401 unauthorized" rfl rfl rfl

/-- Claim C6 counterexample: the two front ends do NOT classify the same
error texts as retryable.  The error text "timed out" matches the console
indicator list but none of the bot's indicators, so the console retries it
while the Telegram bot fails immediately. -/
theorem claim6_counterexample :
    isConnectionErrorConsole "timed out" = true ∧
      isConnectionErrorBot "timed out" = false := by
  constructor <;> rfl

/-- Claim C6 amended: the bot's indicator list is a subset of the console's,
so every error the Telegram bot retries would also be retried by the
console — but not conversely ("timed out", "handshake" and
"connecttimeout"-only texts are console-retryable only). -/
theorem claim6_amended (msg : String) (h : isConnectionErrorBot msg = true) :
    isConnectionErrorConsole msg = true := by
  simp only [isConnectionErrorBot, connIndicatorsBot, List.any_cons, List.any_nil,
    Bool.or_eq_true] at h
  simp only [isConnectionErrorConsole, connIndicatorsConsole, List.any_cons, List.any_nil,
    Bool.or_eq_true]
  tauto

/-- Witness for claim C6 amended at the concrete error text "ssl error". -/
theorem claim6_witness : isConnectionErrorConsole "ssl error" = true :=
  claim6_amended "ssl error" rfl

/-- Claim C3 counterexample: the Telegram bot's normalizer
`extract_token_info` does not fall back to `llm_output.token_usage`.  On a
response exposing only `llm_output.token_usage = {prompt_tokens: 10,
completion_tokens: 5, total_tokens: 15}` it reports every field
unavailable instead of input=10, output=5, total=15. -/
theorem claim3_counterexample :
    extract_token_info llmOnlyResponse = unavailableReport ∧
      extract_token_info llmOnlyResponse ≠ ⟨some 10, some 5, some 15, 0⟩ := by
  exact ⟨rfl, by decide⟩

/-- Claim C3 amended: the console normalizer tries the shapes in the fixed
priority order (1) message `usage_metadata`, (2) `generation_info.usage`,
(3) `llm_output.token_usage`, (4) all-unavailable, stopping at the first
that yields data; on the `llm_output`-only response it reports input=10,
output=5, total=15, cached=0, and on a response with no usage data it
reports unavailable fields without error.  The Telegram bot's
`extract_token_info`, by contrast, implements only shape (1) and reports
all fields unavailable on the same `llm_output`-only response. -/
theorem claim3_amended :
    (∀ r : Response, extractTokensConsole r = normalizeSpec r) ∧
      extractTokensConsole llmOnlyResponse = ⟨some 10, some 5, some 15, 0⟩ ∧
      extractTokensConsole emptyResponse = unavailableReport ∧
      extract_token_info llmOnlyResponse = unavailableReport := by
  refine ⟨fun r => ?_, rfl, rfl, rfl⟩
  unfold extractTokensConsole normalizeSpec
  cases metaUsageOf r with
  | some u => rfl
  | none =>
    match r.generation_info with
    | some (some u) => rfl
    | some none =>
      match r.llm_output with
      | some (some u) => rfl
      | some none => rfl
      | none => rfl
    | none =>
      match r.llm_output with
      | some (some u) => rfl
      | some none => rfl
      | none => rfl

/-- Claim C10: the bulk-listing paths pick their search column by
case-sensitive membership of the exact string "name" (else the first
column), never running the three-step resolver; consequently on a catalog
with columns `["id", "Title"]` bulk listing searches `"id"` while the
single-product resolver of `get_product_info` picks `"Title"`. -/
theorem claim10_bulk_column_rule :
    (∀ cols : List String, cols.contains "name" = true → bulkNameCol cols = some "name") ∧
      (∀ cols : List String, cols.contains "name" = false → bulkNameCol cols = cols.head?) ∧
      bulkNameCol ["id", "Title"] = some "id" ∧
      resolveNameCol ["id", "Title"] (fun _ => false) = some "Title" := by
  refine ⟨fun cols h => ?_, fun cols h => ?_, rfl, rfl⟩ <;>
    (unfold bulkNameCol; rw [h]; rfl)

/-- Witness for claim C10 at concrete column lists with and without a
column named exactly "name". -/
theorem claim10_witness :
    bulkNameCol ["x", "name"] = some "name" ∧ bulkNameCol ["x", "y"] = some "x" :=
  ⟨claim10_bulk_column_rule.1 ["x", "name"] rfl,
   (claim10_bulk_column_rule.2.1 ["x", "y"] rfl).trans rfl⟩

/-- Claim C2 counterexample: on the schema `["title", "name"]` the resolver
selects `"title"`, not the column literally named `"name"` — the scan is
first-match-wins in declared column order, so declared order does decide. -/
theorem claim2_counterexample :
    resolveNameCol ["title", "name"] (fun _ => false) = some "title" ∧
      resolveNameCol ["title", "name"] (fun _ => false) ≠ some "name" :=
  ⟨rfl, by decide⟩

/-- Claim C2 amended: a column literally named "name" (case-insensitive) is
selected whenever no column before it in declared order contains a
candidate token; among candidate-matching columns, declared order wins. -/
theorem claim2_amended (pre post : List String) (isObj : String → Bool) (c : String)
    (hname : lowerStr c = "name") (hpre : ∀ x ∈ pre, colMatches x = false) :
    resolveNameCol (pre ++ c :: post) isObj = some c := by
  have hsub : containsSub (lowerStr c) "name" = true := by rw [hname]; rfl
  have hc : colMatches c = true := by simp [colMatches, possible_names, hsub]
  have hnone : pre.find? colMatches = none :=
    List.find?_eq_none.mpr (fun x hx => by simp [hpre x hx])
  unfold resolveNameCol
  rw [List.find?_append, hnone, List.find?_cons_of_pos _ hc]
  rfl

/-- Witness for claim C2 amended: on the schema `["id", "name"]` the
resolver selects `"name"`. -/
theorem claim2_witness :
    resolveNameCol ["id", "name"] (fun _ => false) = some "name" :=
  claim2_amended ["id"] [] (fun _ => false) "name" rfl (by decide)

/-- Claim C8 counterexample: on the schema `["id", ""]` where only the
empty-named column is textual, the claimed rule (2) picks the empty-named
column, but the code's `if not name_col:` truthiness test treats the
empty string as "not found" and falls through to the first column
`"id"` — so resolution does not follow the claimed three-step rule on
every schema (and on the empty schema it has no column to return at
all). -/
theorem claim8_counterexample :
    resolveNameCol ["id", ""] (fun c => c == "") = some "id" ∧
      resolveNameColSpecClaim ["id", ""] (fun c => c == "") = some "" ∧
      resolveNameCol ["id", ""] (fun c => c == "") ≠
        resolveNameColSpecClaim ["id", ""] (fun c => c == "") :=
  ⟨rfl, rfl, by decide⟩

/-- Claim C8 amended: on every nonempty schema, resolution returns exactly
one column, following first-match-wins priority: (1) the first column
whose lower-cased name contains a candidate token; (2) otherwise the first
column with textual dtype whose lower-cased name is not "id", provided its
name is nonempty (an empty-named find is discarded by the truthiness
test); (3) otherwise — also in that discarded case — the first column. -/
theorem claim8_amended (cols : List String) (isObj : String → Bool) (h : cols ≠ []) :
    (resolveNameCol cols isObj).isSome = true ∧
      (∀ c, cols.find? colMatches = some c → resolveNameCol cols isObj = some c) ∧
      (∀ c, cols.find? colMatches = none →
        cols.find? (fun x => isObj x && lowerStr x != "id") = some c → c ≠ "" →
        resolveNameCol cols isObj = some c) ∧
      (cols.find? colMatches = none →
        cols.find? (fun x => isObj x && lowerStr x != "id") = none →
        resolveNameCol cols isObj = cols.head?) := by
  have hh : cols.head?.isSome = true := by
    cases cols with
    | nil => exact absurd rfl h
    | cons a l => rfl
  refine ⟨?_, ?_, ?_, ?_⟩
  · unfold resolveNameCol
    cases h1 : cols.find? colMatches with
    | some c => rfl
    | none =>
      cases h2 : cols.find? (fun c => isObj c && lowerStr c != "id") with
      | some c =>
        by_cases hce : c = ""
        · simp only [hce, if_pos rfl]
          exact hh
        · simp [hce]
      | none => exact hh
  · intro c hc
    unfold resolveNameCol
    rw [hc]
  · intro c h1 h2 hce
    unfold resolveNameCol
    rw [h1, h2]
    simp [hce]
  · intro h1 h2
    unfold resolveNameCol
    rw [h1, h2]

/-- Witness for claim C8 amended on the schema `["id", "price"]` with
`"price"` the only textual column. -/
theorem claim8_witness :
    (resolveNameCol ["id", "price"] (fun c => c == "price")).isSome = true ∧
      resolveNameCol ["id", "price"] (fun c => c == "price") = some "price" :=
  ⟨(claim8_amended ["id", "price"] (fun c => c == "price") (by decide)).1,
   (claim8_amended ["id", "price"] (fun c => c == "price") (by decide)).2.2.1
     "price" rfl rfl (by decide)⟩

/-- The bulk search loop never returns more rows than `limit`: every exit
path is either empty or a `take limit`. -/
theorem bulkLoop_length_le (nc : String) (rows : List Rec) (limit : Nat) :
    ∀ kws : List String, (bulkLoop nc rows limit kws).length ≤ limit := by
  intro kws
  induction kws with
  | nil => simp [bulkLoop]
  | cons kw rest ih =>
    rw [bulkLoop]
    by_cases hl : kw.length > 2
    · rw [if_pos hl]
      cases rows.filter (fun r => containsSub (lowerStr (getVal r nc)) kw) with
      | nil => exact ih
      | cons m ms =>
        rw [List.length_take]
        exact min_le_left _ _
    · rw [if_neg hl]
      exact ih

/-- A catalog of 51 records whose names all contain "laptop". -/
def df51 : DF :=
  ⟨["name"], (List.range 51).map (fun i => [("name", "laptop" ++ toString i)])⟩

/-- Claim C7 counterexample: `search_products` applies no hard cap of 50 —
asked for 51 records on a 51-row catalog of laptops, it returns 51. -/
theorem claim7_counterexample :
    (search_products "laptop" df51 51).length = 51 ∧ 50 < 51 := by
  constructor
  · rfl
  · decide

/-- Claim C7 amended: `search_products` returns at most `limit` records,
and the console listing branch caps its displayed count at 20; but the cap
of 50 exists only in the Telegram quantity-command parser
(`parseQuantityCap`), not inside `search_products`, which honors limits
above 50. -/
theorem claim7_amended :
    (∀ (query : String) (df : DF) (limit : Nat),
        (search_products query df limit).length ≤ limit) ∧
      (∀ ns : List Nat, consoleListCount ns ≤ 20) ∧
      (∀ n : Nat, parseQuantityCap n ≤ 50) := by
  refine ⟨fun query df limit => ?_, fun ns => ?_, fun n => ?_⟩
  · exact bulkLoop_length_le _ _ _ _
  · exact min_le_right _ _
  · exact min_le_right _ _

/-- Claim C9: a failure while matching one candidate keyword never escapes
the search.  Running `get_product_info` with a matcher that may raise
(`Except.error`) gives, for every query and catalog, exactly the same
(total, `Option`-valued) result as running it with the failures replaced
by "no match for this keyword": the exception is caught and the loop
continues with the next candidate. -/
theorem claim9_keyword_failure_recovered {ρ : Type}
    (q : String) (nameOf : ρ → String) (cat : List ρ)
    (attempt : String → Except Unit (Option ρ)) :
    get_product_info_withMatcher q nameOf cat attempt =
      get_product_info_withMatcher q nameOf cat
        (fun kw =>
          match attempt kw with
          | Except.error _ => Except.ok none
          | Except.ok m => Except.ok m) := by
  have loop : ∀ kws : List String,
      keywordLoop attempt kws =
        keywordLoop
          (fun kw =>
            match attempt kw with
            | Except.error _ => Except.ok none
            | Except.ok m => Except.ok m) kws := by
    intro kws
    induction kws with
    | nil => rfl
    | cons kw rest ih =>
      rw [keywordLoop, keywordLoop]
      by_cases hl : kw.length > 2
      · rw [if_pos hl, if_pos hl]
        cases h : attempt kw with
        | error e => simpa [h] using ih
        | ok m => cases m <;> simp [h, ih]
      · rw [if_neg hl, if_neg hl]
        exact ih
  unfold get_product_info_withMatcher
  cases exactFind q nameOf cat with
  | some r => rfl
  | none => exact loop (buildKeywords q)

/-- The keyword loop with a matcher that never raises is the first-hit
scan `findSome?` over the candidate list, skipping short candidates. -/
theorem keywordLoop_pure {ρ : Type} (att : String → Option ρ) :
    ∀ kws : List String,
      keywordLoop (fun k => Except.ok (att k)) kws =
        kws.findSome? (fun kw => if kw.length > 2 then att kw else none) := by
  intro kws
  induction kws with
  | nil => rfl
  | cons kw rest ih =>
    rw [keywordLoop, List.findSome?_cons]
    by_cases hl : kw.length > 2
    · rw [if_pos hl, if_pos hl]
      cases h : att kw <;> simp [h, ih]
    · rw [if_neg hl, if_neg hl]
      simpa using ih

/-- Dropping a last element that scores `none` does not change a
first-hit scan. -/
theorem findSome_drop_last {α β : Type} (f : α → Option β) (l : List α) (t : α)
    (h : f t = none) : (l ++ [t]).findSome? f = l.findSome? f := by
  rw [List.findSome?_append]
  cases hl : l.findSome? f <;> simp [List.findSome?_cons, h]

/-- The source dictionary entry of a token is its spec-side alternate list
with the token itself appended (for a Synonym Index key), and both are
empty for a non-key. -/
theorem synLookup_cases (t : String) :
    synLookup t = altLookup t ++ [t] ∨ (synLookup t = [] ∧ altLookup t = []) := by
  by_cases h1 : t = "ноутбук"
  · subst h1; exact Or.inl rfl
  by_cases h2 : t = "наушники"
  · subst h2; exact Or.inl rfl
  by_cases h3 : t = "колонка"
  · subst h3; exact Or.inl rfl
  by_cases h4 : t = "телефон"
  · subst h4; exact Or.inl rfl
  by_cases h5 : t = "камера"
  · subst h5; exact Or.inl rfl
  by_cases h6 : t = "планшет"
  · subst h6; exact Or.inl rfl
  refine Or.inr ⟨?_, ?_⟩
  · have hfind : synonyms.find? (fun p => p.1 == t) = none := by
      refine List.find?_eq_none.mpr (fun p hp => ?_)
      fin_cases hp <;> simp only [beq_iff_eq] <;>
        first
          | exact Ne.symm h1
          | exact Ne.symm h2
          | exact Ne.symm h3
          | exact Ne.symm h4
          | exact Ne.symm h5
          | exact Ne.symm h6
    unfold synLookup
    rw [hfind]
    rfl
  · have hfind : synonymAlternates.find? (fun p => p.1 == t) = none := by
      refine List.find?_eq_none.mpr (fun p hp => ?_)
      fin_cases hp <;> simp only [beq_iff_eq] <;>
        first
          | exact Ne.symm h1
          | exact Ne.symm h2
          | exact Ne.symm h3
          | exact Ne.symm h4
          | exact Ne.symm h5
          | exact Ne.symm h6
    unfold altLookup
    rw [hfind]
    rfl

/-- Per-token candidate blocks are interchangeable for a first-hit scan:
the extra copy of the key that the source dictionary carries at the end of
its entry can never be the first hit, because the block already starts
with that very token. -/
theorem block_findSome {ρ : Type} (f : String → Option ρ) (t : String) :
    (t :: synLookup t).findSome? f = (t :: altLookup t).findSome? f := by
  rcases synLookup_cases t with h | ⟨h1, h2⟩
  · rw [h, List.findSome?_cons, List.findSome?_cons]
    cases hf : f t with
    | some r => rfl
    | none => simp [findSome_drop_last f (altLookup t) t hf]
  · rw [h1, h2]

/-- First-hit scans over the source candidate sequence and the spec-side
candidate sequence agree, token block by token block. -/
theorem flatMap_findSome_eq {ρ : Type} (f : String → Option ρ) :
    ∀ toks : List String,
      (flatMapL (fun t => t :: synLookup t) toks).findSome? f =
        (flatMapL (fun t => t :: altLookup t) toks).findSome? f := by
  intro toks
  induction toks with
  | nil => rfl
  | cons t ts ih =>
    rw [flatMapL, flatMapL, List.findSome?_append, List.findSome?_append,
      block_findSome, ih]

/-- Claim C1: after column resolution, `get_product_info` behaves exactly
as specified — the case-insensitive exact pass over the catalog in order
decides first; only if it finds nothing, the keyword pass scans the
candidate sequence (each whitespace token of the lower-cased query
followed by its Synonym Index alternates in declared order), skips
candidates of length ≤ 2, and the first candidate with ≥ 1 substring
match returns the first matching record in catalog order, else `none`.
In particular the query "наушники" finds "Wireless Earbuds Pro" via the
"earbud" alternate. -/
theorem claim1_find_one_matches_spec :
    (∀ (ρ : Type) (q : String) (nameOf : ρ → String) (cat : List ρ),
        get_product_info q nameOf cat = find_one_spec q nameOf cat) ∧
      get_product_info "наушники" (fun r : String => r)
        ["Wireless Mouse", "Wireless Earbuds Pro"] = some "Wireless Earbuds Pro" := by
  constructor
  · intro ρ q nameOf cat
    unfold get_product_info get_product_info_withMatcher find_one_spec
    cases exactFind q nameOf cat with
    | some r => rfl
    | none =>
      rw [keywordLoop_pure (kwFind nameOf cat) (buildKeywords q)]
      exact flatMap_findSome_eq (specStep nameOf cat) (tokenize q)
  · rfl
